import Mathlib

/-!
Verification of the SolarEdge Modbus exporter (`solaredge.py`).

The development shallowly embeds the register-decoding pipeline of the
script: the `BinaryPayloadDecoder` cursor (byte order BIG throughout the
source; word order BIG for inverter/meter blocks and LITTLE for battery
blocks), the three device field models built in `write_to_influx`, the
Prometheus gauge-name computation of `publish_metrics`, the startup
identification sweeps, and the steady-state polling cycle's control flow.

Machine integers are modelled as `Nat`/`Int` with explicit `% 65536`
masking (a Modbus holding register is an unsigned 16-bit word).  Scaled
values are exact rationals.  Python computes `value * 10**e` with a float
value and an int (`e ≥ 0`) or float (`e < 0`) scale factor, so the exact
`ℚ` product is faithful only while the exponent lies in the float range:
for `e ≥ 309` the int→float conversion in the multiply raises
`OverflowError` (the cycle publishes nothing), and for `e ≤ -324` the
float scale factor underflows to exactly `0.0`.  Theorems about scaled
published values therefore carry the domain hypothesis
`-323 ≤ e ≤ 308` on the relevant scale-factor registers; within it the
difference to binary floating point is ordinary rounding, which no claim
checked here depends on.  `trunc_float` (`float('%.2f' % v)`) is modelled
as rounding to 2 decimal places; in the source it is only ever applied to
integer-valued decodes, where every rounding convention agrees.
-/

namespace SolarEdge

/-- Word order of `BinaryPayloadDecoder.fromRegisters` (`Endian.BIG` /
`Endian.LITTLE` in the source; the byte order is always `Endian.BIG`). -/
inductive WordOrder
  | big
  | little
deriving DecidableEq, Repr

/-- The state of a `BinaryPayloadDecoder`: the raw register block, the
declared word order, and the byte pointer. -/
structure PayloadDecoder where
  wordorder : WordOrder
  words : List Nat
  ptr : Nat
deriving DecidableEq, Repr

/-- `BinaryPayloadDecoder.fromRegisters(reg_block, byteorder=BIG, wordorder=wo)`. -/
def mkDecoder (wo : WordOrder) (b : List Nat) : PayloadDecoder := ⟨wo, b, 0⟩

/-- The 16-bit register at word index `i` of a block (registers are
unsigned 16-bit words, hence the mask). -/
def regW (b : List Nat) (i : Nat) : Nat := b.getD i 0 % 65536

/-- The register under word index `i` of the decoder's block. -/
def wordAt (d : PayloadDecoder) (i : Nat) : Nat := regW d.words i

/-- Two's-complement reading of a 16-bit word (how pymodbus unpacks a
signed 16-bit value). -/
def toI16 (w : Nat) : Int :=
  if w % 65536 < 32768 then (w % 65536 : Int) else (w % 65536 : Int) - 65536

/-- `decoder.decode_16bit_uint()`: consume 2 bytes, return the word. -/
def decode_16bit_uint (d : PayloadDecoder) : Nat × PayloadDecoder :=
  (wordAt d (d.ptr / 2), ⟨d.wordorder, d.words, d.ptr + 2⟩)

/-- `decoder.decode_16bit_int()`: consume 2 bytes, return the word read as
a signed 16-bit integer. -/
def decode_16bit_int (d : PayloadDecoder) : Int × PayloadDecoder :=
  (toI16 (wordAt d (d.ptr / 2)), ⟨d.wordorder, d.words, d.ptr + 2⟩)

/-- Assembling two 16-bit words into a 32-bit value under a word order. -/
def assemble32 : WordOrder → Nat → Nat → Nat
  | WordOrder.big, w0, w1 => w0 * 65536 + w1
  | WordOrder.little, w0, w1 => w1 * 65536 + w0

/-- `decoder.decode_32bit_uint()`: consume 4 bytes, assemble the two words
per the declared word order. -/
def decode_32bit_uint (d : PayloadDecoder) : Nat × PayloadDecoder :=
  (assemble32 d.wordorder (wordAt d (d.ptr / 2)) (wordAt d (d.ptr / 2 + 1)),
   ⟨d.wordorder, d.words, d.ptr + 4⟩)

/-- Assembling four 16-bit words into a 64-bit value under a word order. -/
def assemble64 : WordOrder → Nat → Nat → Nat → Nat → Nat
  | WordOrder.big, w0, w1, w2, w3 => ((w0 * 65536 + w1) * 65536 + w2) * 65536 + w3
  | WordOrder.little, w0, w1, w2, w3 => ((w3 * 65536 + w2) * 65536 + w1) * 65536 + w0

/-- `decoder.decode_64bit_uint()`: consume 8 bytes, assemble the four
words per the declared word order. -/
def decode_64bit_uint (d : PayloadDecoder) : Nat × PayloadDecoder :=
  (assemble64 d.wordorder (wordAt d (d.ptr / 2)) (wordAt d (d.ptr / 2 + 1))
     (wordAt d (d.ptr / 2 + 2)) (wordAt d (d.ptr / 2 + 3)),
   ⟨d.wordorder, d.words, d.ptr + 8⟩)

/-- The exact rational value of an IEEE-754 binary32 bit pattern.  Finite
encodings are decoded exactly; the non-finite encodings (biased exponent
255) are mapped to 0 — none of the theorems below depends on the value
chosen at those points. -/
def f32FromBits (n : Nat) : ℚ :=
  let s : ℚ := if n / 2 ^ 31 % 2 = 1 then -1 else 1
  let e : Nat := n / 2 ^ 23 % 2 ^ 8
  let m : Nat := n % 2 ^ 23
  if e = 0 then s * (m : ℚ) / 2 ^ 149
  else if e = 255 then 0
  else s * ((2 ^ 23 + m : Nat) : ℚ) * (2 : ℚ) ^ ((e : ℤ) - 150)

/-- `decoder.decode_32bit_float()`: consume 4 bytes, assemble per word
order, interpret as IEEE-754 binary32. -/
def decode_32bit_float (d : PayloadDecoder) : ℚ × PayloadDecoder :=
  (f32FromBits (decode_32bit_uint d).1, (decode_32bit_uint d).2)

/-- `decoder.skip_bytes(delta)`: move the byte pointer by a signed delta. -/
def skip_bytes (d : PayloadDecoder) (delta : Int) : PayloadDecoder :=
  ⟨d.wordorder, d.words, ((d.ptr : Int) + delta).toNat⟩

/-- The byte at absolute byte offset `j` of the block (byte order BIG:
high byte of each word first). -/
def byteAt (d : PayloadDecoder) (j : Nat) : Nat :=
  if j % 2 = 0 then wordAt d (j / 2) / 256 else wordAt d (j / 2) % 256

/-- `decoder.decode_string(byteLen)`: consume `byteLen` bytes and decode
them as text (word order does not apply to strings in pymodbus). -/
def decode_string (d : PayloadDecoder) (byteLen : Nat) : String × PayloadDecoder :=
  (((List.range byteLen).map (fun k => Char.ofNat (byteAt d (d.ptr + k)))).asString,
   ⟨d.wordorder, d.words, d.ptr + byteLen⟩)

/-- Python `s.split('\x00')[0]`: the prefix before the first null byte. -/
def splitAtNull (s : String) : String :=
  (s.toList.takeWhile (fun c => c ≠ Char.ofNat 0)).asString

/-- `trunc_float` from the source: `float('%.2f' % v)`, i.e. rounding to
two decimal places.  In the source it is only applied to integer-valued
decodes, where it is the identity. -/
def trunc_float (q : ℚ) : ℚ := (round (q * 100) : ℚ) / 100

/-- The repeated inverter pattern without a scale factor
(`fooVal = trunc_float(decode_16bit_uint()); if fooVal < 65535: fooVal else 0.0`). -/
def u16RawEntry (d : PayloadDecoder) : ℚ × PayloadDecoder :=
  let p := decode_16bit_uint d
  let v := trunc_float (p.1 : ℚ)
  (if v < 65535 then v else 0, p.2)

/-- The repeated inverter pattern for an unsigned 16-bit field with a
scale factor.  The multiply is exact `ℚ` arithmetic: faithful to the
source for group exponents in `[-323, 308]`; at `e ≥ 309` the source
raises `OverflowError` in the multiply instead (see the header). -/
def u16Entry (sf : ℚ) (d : PayloadDecoder) : ℚ × PayloadDecoder :=
  let p := decode_16bit_uint d
  let v := trunc_float (p.1 : ℚ)
  (if v < 65535 then v * sf else 0, p.2)

/-- The repeated pattern for a signed 16-bit field with a scale factor and
an availability threshold `t` (65535 in the inverter model, 32768 in the
meter model).  The exact-`ℚ` multiply is faithful for group exponents in
`[-323, 308]`, as for `u16Entry`. -/
def i16Entry (t : ℚ) (sf : ℚ) (d : PayloadDecoder) : ℚ × PayloadDecoder :=
  let p := decode_16bit_int d
  let v := trunc_float (p.1 : ℚ)
  (if v < t then v * sf else 0, p.2)

/-- The repeated pattern for an unsigned 32-bit accumulator with a scale
factor (`if fooVal < 4294967295: fooVal * scalefactor else 0.0`).  The
exact-`ℚ` multiply is faithful for group exponents in `[-323, 308]`, as
for `u16Entry`. -/
def u32Entry (sf : ℚ) (d : PayloadDecoder) : ℚ × PayloadDecoder :=
  let p := decode_32bit_uint d
  let v := trunc_float (p.1 : ℚ)
  (if v < 4294967295 then v * sf else 0, p.2)

/-- The decoder over an inverter telemetry block
(`fromRegisters(reg_block, byteorder=BIG, wordorder=BIG)`, line 307). -/
def inverterDecoder (b : List Nat) : PayloadDecoder := mkDecoder WordOrder.big b

/-- The decoder over a meter telemetry block
(`fromRegisters(reg_block, byteorder=BIG, wordorder=BIG)`, line 663). -/
def meterDecoder (b : List Nat) : PayloadDecoder := mkDecoder WordOrder.big b

/-- The decoder over a battery telemetry block
(`fromRegisters(reg_block, byteorder=BIG, wordorder=LITTLE)`, line 1067). -/
def batteryDecoder (b : List Nat) : PayloadDecoder := mkDecoder WordOrder.little b

/-- The inverter device model: the ordered field map `dictInv` built from
one 50-word block read at base register 40069, translated line by line
from the source (including every `skip_bytes` seek and the twelve 0.0
scale-factor placeholder fields). -/
def inverterFields (b : List Nat) : List (String × ℚ) :=
  let d0 := inverterDecoder b
  let (vDID, d1) := u16RawEntry d0
  let (vLen, d2) := u16RawEntry d1
  -- AC Current group: peek at the scale factor (register 40075), seek back
  let (eA, dA) := decode_16bit_int (skip_bytes d2 8)
  let sfA := (10 : ℚ) ^ eA
  let (vAC, d3) := u16Entry sfA (skip_bytes dA (-10))
  let (vACa, d4) := u16Entry sfA d3
  let (vACb, d5) := u16Entry sfA d4
  let (vACc, d6) := u16Entry sfA d5
  -- AC Voltage group (scale factor at register 40082)
  let (eV, dV) := decode_16bit_int (skip_bytes d6 14)
  let sfV := (10 : ℚ) ^ eV
  let (vVab, d7) := u16Entry sfV (skip_bytes dV (-14))
  let (vVbc, d8) := u16Entry sfV d7
  let (vVca, d9) := u16Entry sfV d8
  let (vVan, d10) := u16Entry sfV d9
  let (vVbn, d11) := u16Entry sfV d10
  let (vVcn, d12) := u16Entry sfV d11
  -- AC Power (scale factor at register 40084)
  let (eP, dP) := decode_16bit_int (skip_bytes d12 4)
  let sfP := (10 : ℚ) ^ eP
  let (vP, d13) := i16Entry 65535 sfP (skip_bytes dP (-4))
  -- AC Frequency (scale factor at register 40086)
  let (eF, dF) := decode_16bit_int (skip_bytes d13 4)
  let sfF := (10 : ℚ) ^ eF
  let (vF, d14) := u16Entry sfF (skip_bytes dF (-4))
  -- AC Apparent Power (scale factor at register 40088)
  let (eVA, dVA) := decode_16bit_int (skip_bytes d14 4)
  let sfVA := (10 : ℚ) ^ eVA
  let (vVA, d15) := i16Entry 65535 sfVA (skip_bytes dVA (-4))
  -- AC Reactive Power (scale factor at register 40090)
  let (eVAR, dVAR) := decode_16bit_int (skip_bytes d15 4)
  let sfVAR := (10 : ℚ) ^ eVAR
  let (vVAR, d16) := i16Entry 65535 sfVAR (skip_bytes dVAR (-4))
  -- AC Power Factor (scale factor at register 40092)
  let (ePF, dPF) := decode_16bit_int (skip_bytes d16 4)
  let sfPF := (10 : ℚ) ^ ePF
  let (vPF, d17) := i16Entry 65535 sfPF (skip_bytes dPF (-4))
  -- AC Lifetime Energy (scale factor at register 40095, decoded UNSIGNED)
  let (eE, dE) := decode_16bit_uint (skip_bytes d17 6)
  let sfE := (10 : ℚ) ^ eE
  let (vE, d18) := u32Entry sfE (skip_bytes dE (-6))
  -- DC Current (scale factor at register 40097)
  let (eDC, dDC) := decode_16bit_int (skip_bytes d18 4)
  let sfDC := (10 : ℚ) ^ eDC
  let (vDC, d19) := u16Entry sfDC (skip_bytes dDC (-4))
  -- DC Voltage (scale factor at register 40099)
  let (eDV, dDV) := decode_16bit_int (skip_bytes d19 4)
  let sfDV := (10 : ℚ) ^ eDV
  let (vDV, d20) := u16Entry sfDV (skip_bytes dDV (-4))
  -- DC Power (scale factor at register 40101)
  let (eDP, dDP) := decode_16bit_int (skip_bytes d20 4)
  let sfDP := (10 : ℚ) ^ eDP
  let (vDP, d21) := i16Entry 65535 sfDP (skip_bytes dDP (-4))
  -- Inverter Temp (scale factor at register 40106; the source seeks back
  -- only 8 bytes, landing on register 40103)
  let (eT, dT) := decode_16bit_int (skip_bytes d21 10)
  let sfT := (10 : ℚ) ^ eT
  let (vT, d22) := i16Entry 65535 sfT (skip_bytes dT (-8))
  -- Inverter Operating State and vendor status code (registers 40107/40108)
  let (vS, d23) := u16RawEntry (skip_bytes d22 6)
  let (vSV, _) := u16RawEntry d23
  [("SunSpec_DID", vDID), ("SunSpec_Length", vLen),
   ("AC_Current", vAC), ("AC_CurrentA", vACa),
   ("AC_CurrentB", vACb), ("AC_CurrentC", vACc),
   ("AC_VoltageAB", vVab), ("AC_VoltageBC", vVbc),
   ("AC_VoltageCA", vVca), ("AC_VoltageAN", vVan),
   ("AC_VoltageBN", vVbn), ("AC_VoltageCN", vVcn),
   ("AC_Power", vP), ("AC_Frequency", vF),
   ("AC_VA", vVA), ("AC_VAR", vVAR), ("AC_PF", vPF),
   ("AC_Energy_WH", vE),
   ("DC_Current", vDC), ("DC_Voltage", vDV), ("DC_Power", vDP),
   ("Temp_Sink", vT), ("Status", vS), ("Status_Vendor", vSV),
   ("AC_Current_SF", 0), ("AC_Voltage_SF", 0), ("AC_Power_SF", 0),
   ("AC_Frequency_SF", 0), ("AC_VA_SF", 0), ("AC_VAR_SF", 0),
   ("AC_PF_SF", 0), ("AC_Energy_WH_SF", 0), ("DC_Current_SF", 0),
   ("DC_Voltage_SF", 0), ("DC_Power_SF", 0), ("Temp_SF", 0)]

/-- The meter device model: the ordered field map `dictM` built from one
105-word block read at the meter's base register, translated line by line
from the source (all value fields are decoded signed with threshold
32768; the eight energy accumulators are unsigned 32-bit with a shared
signed scale factor at word 54). -/
def meterFields (b : List Nat) : List (String × ℚ) :=
  let d0 := meterDecoder b
  let (vDID, d1) := u16RawEntry d0
  let (vLen, d2) := u16RawEntry d1
  -- AC Current group (scale factor at register 40194)
  let (eA, dA) := decode_16bit_int (skip_bytes d2 8)
  let sfA := (10 : ℚ) ^ eA
  let (vAC, d3) := i16Entry 32768 sfA (skip_bytes dA (-10))
  let (vACa, d4) := i16Entry 32768 sfA d3
  let (vACb, d5) := i16Entry 32768 sfA d4
  let (vACc, d6) := i16Entry 32768 sfA d5
  -- AC Voltage group (scale factor at register 40203)
  let (eV, dV) := decode_16bit_int (skip_bytes d6 18)
  let sfV := (10 : ℚ) ^ eV
  let (vVln, d7) := i16Entry 32768 sfV (skip_bytes dV (-18))
  let (vVan, d8) := i16Entry 32768 sfV d7
  let (vVbn, d9) := i16Entry 32768 sfV d8
  let (vVcn, d10) := i16Entry 32768 sfV d9
  let (vVll, d11) := i16Entry 32768 sfV d10
  let (vVab, d12) := i16Entry 32768 sfV d11
  let (vVbc, d13) := i16Entry 32768 sfV d12
  let (vVca, d14) := i16Entry 32768 sfV d13
  -- AC Frequency (scale factor at register 40205)
  let (eF, dF) := decode_16bit_int (skip_bytes d14 4)
  let sfF := (10 : ℚ) ^ eF
  let (vF, d15) := i16Entry 32768 sfF (skip_bytes dF (-4))
  -- AC Real Power (scale factor at register 40210)
  let (eP, dP) := decode_16bit_int (skip_bytes d15 10)
  let sfP := (10 : ℚ) ^ eP
  let (vP, d16) := i16Entry 32768 sfP (skip_bytes dP (-10))
  let (vPa, d17) := i16Entry 32768 sfP d16
  let (vPb, d18) := i16Entry 32768 sfP d17
  let (vPc, d19) := i16Entry 32768 sfP d18
  -- AC Apparent Power (scale factor at register 40215)
  let (eVA, dVA) := decode_16bit_int (skip_bytes d19 10)
  let sfVA := (10 : ℚ) ^ eVA
  let (vVA, d20) := i16Entry 32768 sfVA (skip_bytes dVA (-10))
  let (vVAa, d21) := i16Entry 32768 sfVA d20
  let (vVAb, d22) := i16Entry 32768 sfVA d21
  let (vVAc, d23) := i16Entry 32768 sfVA d22
  -- AC Reactive Power (scale factor at register 40220)
  let (eVAR, dVAR) := decode_16bit_int (skip_bytes d23 10)
  let sfVAR := (10 : ℚ) ^ eVAR
  let (vVAR, d24) := i16Entry 32768 sfVAR (skip_bytes dVAR (-10))
  let (vVARa, d25) := i16Entry 32768 sfVAR d24
  let (vVARb, d26) := i16Entry 32768 sfVAR d25
  let (vVARc, d27) := i16Entry 32768 sfVAR d26
  -- AC Power Factor (scale factor at register 40225)
  let (ePF, dPF) := decode_16bit_int (skip_bytes d27 10)
  let sfPF := (10 : ℚ) ^ ePF
  let (vPF, d28) := i16Entry 32768 sfPF (skip_bytes dPF (-10))
  let (vPFa, d29) := i16Entry 32768 sfPF d28
  let (vPFb, d30) := i16Entry 32768 sfPF d29
  let (vPFc, d31) := i16Entry 32768 sfPF d30
  -- Accumulated AC Real Energy (scale factor at register 40242)
  let (eE, dE) := decode_16bit_int (skip_bytes d31 34)
  let sfE := (10 : ℚ) ^ eE
  let (vExp, d32) := u32Entry sfE (skip_bytes dE (-34))
  let (vExpA, d33) := u32Entry sfE d32
  let (vExpB, d34) := u32Entry sfE d33
  let (vExpC, d35) := u32Entry sfE d34
  let (vImp, d36) := u32Entry sfE d35
  let (vImpA, d37) := u32Entry sfE d36
  let (vImpB, d38) := u32Entry sfE d37
  let (vImpC, _) := u32Entry sfE d38
  [("M_SunSpec_DID", vDID), ("M_SunSpec_Length", vLen),
   ("M_AC_Current", vAC), ("M_AC_CurrentA", vACa),
   ("M_AC_CurrentB", vACb), ("M_AC_CurrentC", vACc),
   ("M_AC_VoltageLN", vVln), ("M_AC_VoltageAN", vVan),
   ("M_AC_VoltageBN", vVbn), ("M_AC_VoltageCN", vVcn),
   ("M_AC_VoltageLL", vVll), ("M_AC_VoltageAB", vVab),
   ("M_AC_VoltageBC", vVbc), ("M_AC_VoltageCA", vVca),
   ("M_AC_Frequency", vF),
   ("M_AC_Power", vP), ("M_AC_Power_A", vPa),
   ("M_AC_Power_B", vPb), ("M_AC_Power_C", vPc),
   ("M_AC_VA", vVA), ("M_AC_VA_A", vVAa),
   ("M_AC_VA_B", vVAb), ("M_AC_VA_C", vVAc),
   ("M_AC_VAR", vVAR), ("M_AC_VAR_A", vVARa),
   ("M_AC_VAR_B", vVARb), ("M_AC_VAR_C", vVARc),
   ("M_AC_PF", vPF), ("M_AC_PF_A", vPFa),
   ("M_AC_PF_B", vPFb), ("M_AC_PF_C", vPFc),
   ("M_Exported", vExp), ("M_Exported_A", vExpA),
   ("M_Exported_B", vExpB), ("M_Exported_C", vExpC),
   ("M_Imported", vImp), ("M_Imported_A", vImpA),
   ("M_Imported_B", vImpB), ("M_Imported_C", vImpC),
   ("M_AC_Current_SF", 0), ("M_AC_Voltage_SF", 0),
   ("M_AC_Frequency_SF", 0), ("M_AC_Power_SF", 0),
   ("M_AC_VA_SF", 0), ("M_AC_VAR_SF", 0),
   ("M_AC_PF_SF", 0), ("M_Energy_W_SF", 0)]

/-- The battery device model: the ordered field map `dictB` built from one
72-word block read at the battery's base register (word order LITTLE).
Every field is stored exactly as decoded — no sentinel branch, no scale
factor, no `trunc_float`. -/
def batteryFields (b : List Nat) : List (String × ℚ) :=
  let d0 := batteryDecoder b
  let (v1, d1) := decode_32bit_float d0
  let (v2, d2) := decode_32bit_float d1
  let (v3, d3) := decode_32bit_float d2
  let (v4, d4) := decode_32bit_float d3
  let (v5, d5) := decode_32bit_float d4
  let (v6, d6) := decode_32bit_float (skip_bytes d5 64)
  let (v7, d7) := decode_32bit_float d6
  let (v8, d8) := decode_32bit_float d7
  let (v9, d9) := decode_32bit_float d8
  let (v10, d10) := decode_32bit_float d9
  let (v11, d11) := decode_64bit_uint d10
  let (v12, d12) := decode_64bit_uint d11
  let (v13, d13) := decode_32bit_float d12
  let (v14, d14) := decode_32bit_float d13
  let (v15, d15) := decode_32bit_float d14
  let (v16, d16) := decode_32bit_float d15
  let (v17, d17) := decode_32bit_uint d16
  let (v18, _) := decode_32bit_uint d17
  [("B_Rated_Energy", v1),
   ("B_Max_Charge_Continues_Power", v2),
   ("B_Max_Discharge_Continues_Power", v3),
   ("B_Max_Charge_Peak_Power", v4),
   ("B_Max_Discharge_Peak_Power", v5),
   ("B_Average_Temperature", v6),
   ("B_Max_Temperature", v7),
   ("B_Instantaneous_Voltage", v8),
   ("B_Instantaneous_Current", v9),
   ("B_Instantaneous_Power", v10),
   ("B_Lifetime_Export_Energy_Counter", (v11 : ℚ)),
   ("B_Lifetime_Import_Energy_Counter", (v12 : ℚ)),
   ("B_Max_Energy", v13),
   ("B_Available_Energy", v14),
   ("B_State_of_Health", v15),
   ("B_State_of_Energy", v16),
   ("B_Status", (v17 : ℚ)),
   ("B_Status_Internal", (v18 : ℚ))]

/-! ### Specification-side value forms

The following definitions restate the per-field decoding rules in the
vocabulary of the specification (raw register values, sentinel thresholds
expressed with `≤`, a shared per-group exponent) so that the device
models above can be compared against them. -/

/-- The scale factor obtained from a signed 16-bit exponent register. -/
def sfI (b : List Nat) (i : Nat) : ℚ := (10 : ℚ) ^ toI16 (regW b i)

/-- The scale factor obtained from an unsigned 16-bit exponent register. -/
def sfU (b : List Nat) (i : Nat) : ℚ := (10 : ℚ) ^ regW b i

/-- Spec form of an unscaled unsigned 16-bit value: zeroed exactly when
the raw value reaches the sentinel 65535. -/
def rawSpecV (v : Nat) : ℚ := if 65535 ≤ v then 0 else (v : ℚ)

/-- Spec form of a scaled unsigned 16-bit value: zeroed exactly when the
raw value reaches the sentinel 65535, otherwise the raw value times the
group's scale factor. -/
def u16SpecV (v : Nat) (sf : ℚ) : ℚ := if 65535 ≤ v then 0 else (v : ℚ) * sf

/-- Spec form of a scaled signed 16-bit value: the signed decode times the
group's scale factor, never zeroed (a signed 16-bit value is always
strictly below both thresholds 32768 and 65535 used in the source). -/
def i16SpecV (v : Nat) (sf : ℚ) : ℚ := (toI16 v : ℚ) * sf

/-- Spec form of a 32-bit accumulator value: zeroed exactly when the raw
value reaches the sentinel 4294967295. -/
def u32SpecV (v : Nat) (sf : ℚ) : ℚ := if 4294967295 ≤ v then 0 else (v : ℚ) * sf

/-- Spec form of an unscaled unsigned 16-bit field at word index `vi`. -/
def rawSpec (b : List Nat) (vi : Nat) : ℚ := rawSpecV (regW b vi)

/-- Spec form of a scaled unsigned 16-bit field at word index `vi` whose
group's signed scale-factor register is at word index `si`. -/
def u16Spec (b : List Nat) (vi si : Nat) : ℚ := u16SpecV (regW b vi) (sfI b si)

/-- Spec form of a scaled signed 16-bit field at word index `vi` whose
group's signed scale-factor register is at word index `si`. -/
def i16Spec (b : List Nat) (vi si : Nat) : ℚ := i16SpecV (regW b vi) (sfI b si)

/-- The 32-bit value of two consecutive registers in big word order. -/
def u32be (b : List Nat) (i : Nat) : Nat := regW b i * 65536 + regW b (i + 1)

/-- Spec form of a 32-bit accumulator at word index `vi` with a signed
scale-factor register at word index `si`. -/
def u32SpecI (b : List Nat) (vi si : Nat) : ℚ := u32SpecV (u32be b vi) (sfI b si)

/-- Spec form of a 32-bit accumulator at word index `vi` with an unsigned
scale-factor register at word index `si`. -/
def u32SpecU (b : List Nat) (vi si : Nat) : ℚ := u32SpecV (u32be b vi) (sfU b si)

/-- The 32-bit value of two consecutive registers in little word order. -/
def u32le (b : List Nat) (i : Nat) : Nat := regW b (i + 1) * 65536 + regW b i

/-- The 64-bit value of four consecutive registers in little word order. -/
def u64le (b : List Nat) (i : Nat) : Nat :=
  ((regW b (i + 3) * 65536 + regW b (i + 2)) * 65536 + regW b (i + 1)) * 65536 + regW b i

/-- The inverter field map in specification form: each 16-bit field is the
raw register at its word index, zeroed exactly at the sentinel and scaled
by its group's shared signed exponent; the one 32-bit accumulator
(`AC_Energy_WH`) uses an exponent register decoded as UNSIGNED. -/
def inverterSpecFields (b : List Nat) : List (String × ℚ) :=
  [("SunSpec_DID", rawSpec b 0), ("SunSpec_Length", rawSpec b 1),
   ("AC_Current", u16Spec b 2 6), ("AC_CurrentA", u16Spec b 3 6),
   ("AC_CurrentB", u16Spec b 4 6), ("AC_CurrentC", u16Spec b 5 6),
   ("AC_VoltageAB", u16Spec b 7 13), ("AC_VoltageBC", u16Spec b 8 13),
   ("AC_VoltageCA", u16Spec b 9 13), ("AC_VoltageAN", u16Spec b 10 13),
   ("AC_VoltageBN", u16Spec b 11 13), ("AC_VoltageCN", u16Spec b 12 13),
   ("AC_Power", i16Spec b 14 15), ("AC_Frequency", u16Spec b 16 17),
   ("AC_VA", i16Spec b 18 19), ("AC_VAR", i16Spec b 20 21),
   ("AC_PF", i16Spec b 22 23),
   ("AC_Energy_WH", u32SpecU b 24 26),
   ("DC_Current", u16Spec b 27 28), ("DC_Voltage", u16Spec b 29 30),
   ("DC_Power", i16Spec b 31 32),
   ("Temp_Sink", i16Spec b 34 37),
   ("Status", rawSpec b 38), ("Status_Vendor", rawSpec b 39),
   ("AC_Current_SF", 0), ("AC_Voltage_SF", 0), ("AC_Power_SF", 0),
   ("AC_Frequency_SF", 0), ("AC_VA_SF", 0), ("AC_VAR_SF", 0),
   ("AC_PF_SF", 0), ("AC_Energy_WH_SF", 0), ("DC_Current_SF", 0),
   ("DC_Voltage_SF", 0), ("DC_Power_SF", 0), ("Temp_SF", 0)]

/-- The meter field map in specification form: every 16-bit field is
decoded SIGNED (threshold 32768, which a signed decode never reaches, so
no meter 16-bit field is ever zeroed); the eight 32-bit accumulators share
the signed exponent register at word 54. -/
def meterSpecFields (b : List Nat) : List (String × ℚ) :=
  [("M_SunSpec_DID", rawSpec b 0), ("M_SunSpec_Length", rawSpec b 1),
   ("M_AC_Current", i16Spec b 2 6), ("M_AC_CurrentA", i16Spec b 3 6),
   ("M_AC_CurrentB", i16Spec b 4 6), ("M_AC_CurrentC", i16Spec b 5 6),
   ("M_AC_VoltageLN", i16Spec b 7 15), ("M_AC_VoltageAN", i16Spec b 8 15),
   ("M_AC_VoltageBN", i16Spec b 9 15), ("M_AC_VoltageCN", i16Spec b 10 15),
   ("M_AC_VoltageLL", i16Spec b 11 15), ("M_AC_VoltageAB", i16Spec b 12 15),
   ("M_AC_VoltageBC", i16Spec b 13 15), ("M_AC_VoltageCA", i16Spec b 14 15),
   ("M_AC_Frequency", i16Spec b 16 17),
   ("M_AC_Power", i16Spec b 18 22), ("M_AC_Power_A", i16Spec b 19 22),
   ("M_AC_Power_B", i16Spec b 20 22), ("M_AC_Power_C", i16Spec b 21 22),
   ("M_AC_VA", i16Spec b 23 27), ("M_AC_VA_A", i16Spec b 24 27),
   ("M_AC_VA_B", i16Spec b 25 27), ("M_AC_VA_C", i16Spec b 26 27),
   ("M_AC_VAR", i16Spec b 28 32), ("M_AC_VAR_A", i16Spec b 29 32),
   ("M_AC_VAR_B", i16Spec b 30 32), ("M_AC_VAR_C", i16Spec b 31 32),
   ("M_AC_PF", i16Spec b 33 37), ("M_AC_PF_A", i16Spec b 34 37),
   ("M_AC_PF_B", i16Spec b 35 37), ("M_AC_PF_C", i16Spec b 36 37),
   ("M_Exported", u32SpecI b 38 54), ("M_Exported_A", u32SpecI b 40 54),
   ("M_Exported_B", u32SpecI b 42 54), ("M_Exported_C", u32SpecI b 44 54),
   ("M_Imported", u32SpecI b 46 54), ("M_Imported_A", u32SpecI b 48 54),
   ("M_Imported_B", u32SpecI b 50 54), ("M_Imported_C", u32SpecI b 52 54),
   ("M_AC_Current_SF", 0), ("M_AC_Voltage_SF", 0),
   ("M_AC_Frequency_SF", 0), ("M_AC_Power_SF", 0),
   ("M_AC_VA_SF", 0), ("M_AC_VAR_SF", 0),
   ("M_AC_PF_SF", 0), ("M_Energy_W_SF", 0)]

/-- The battery field map in specification form: every field is the plain
decode of its registers (little word order) with no sentinel branch, no
scale-factor multiplication and no `trunc_float`. -/
def batterySpecFields (b : List Nat) : List (String × ℚ) :=
  [("B_Rated_Energy", f32FromBits (u32le b 0)),
   ("B_Max_Charge_Continues_Power", f32FromBits (u32le b 2)),
   ("B_Max_Discharge_Continues_Power", f32FromBits (u32le b 4)),
   ("B_Max_Charge_Peak_Power", f32FromBits (u32le b 6)),
   ("B_Max_Discharge_Peak_Power", f32FromBits (u32le b 8)),
   ("B_Average_Temperature", f32FromBits (u32le b 42)),
   ("B_Max_Temperature", f32FromBits (u32le b 44)),
   ("B_Instantaneous_Voltage", f32FromBits (u32le b 46)),
   ("B_Instantaneous_Current", f32FromBits (u32le b 48)),
   ("B_Instantaneous_Power", f32FromBits (u32le b 50)),
   ("B_Lifetime_Export_Energy_Counter", (u64le b 52 : ℚ)),
   ("B_Lifetime_Import_Energy_Counter", (u64le b 56 : ℚ)),
   ("B_Max_Energy", f32FromBits (u32le b 60)),
   ("B_Available_Energy", f32FromBits (u32le b 62)),
   ("B_State_of_Health", f32FromBits (u32le b 64)),
   ("B_State_of_Energy", f32FromBits (u32le b 66)),
   ("B_Status", (u32le b 68 : ℚ)),
   ("B_Status_Internal", (u32le b 70 : ℚ))]

/-! ### Prometheus gauge naming (`publish_metrics`) -/

/-- Python `str.replace`: replace every non-overlapping occurrence of
`pat`, scanning left to right (fuel-bounded; the fuel `s.length` suffices
for a non-empty pattern). -/
def replaceList : Nat → List Char → List Char → List Char → List Char
  | 0, s, _, _ => s
  | fuel + 1, s, pat, rep =>
    match s with
    | [] => []
    | c :: rest =>
      if pat.isPrefixOf s then rep ++ replaceList fuel (s.drop pat.length) pat rep
      else c :: replaceList fuel rest pat rep

/-- Python `s.replace(pat, rep)` on strings. -/
def pyReplace (s pat rep : String) : String :=
  (replaceList s.toList.length s.toList pat.toList rep.toList).asString

/-- The Prometheus gauge names produced by one `publish_metrics` call:
inverter and battery readings use each field name unmodified; meter
readings keep the unmodified name only when `meternum == 1 and
legacysupport == True`, and otherwise rewrite `M_` to `M<meternum>_`. -/
def publishGaugeNames (dictobj : List (String × ℚ)) (objtype : String)
    (meternum : Nat) (legacysupport : Bool) : List String :=
  if objtype = "inverter" ∨ objtype = "battery" then
    dictobj.map (fun kv => kv.1)
  else if objtype = "meter" then
    dictobj.map (fun kv =>
      if meternum = 1 ∧ legacysupport = true then kv.1
      else pyReplace kv.1 "M_" ("M" ++ toString meternum ++ "_"))
  else []

/-! ### Startup identification sweeps -/

/-- The DeviceLabel derived from one meter identification block:
manufacturer (32 bytes), model (32), option (16), version (16), serial
(32); label is `manufacturer(serial)`, each trimmed at the first null. -/
def meterLabelOf (b : List Nat) : String :=
  let d := mkDecoder WordOrder.big b
  let (manu, d1) := decode_string d 32
  let (_, d2) := decode_string d1 32
  let (_, d3) := decode_string d2 16
  let (_, d4) := decode_string d3 16
  let (serial, _) := decode_string d4 32
  splitAtNull manu ++ "(" ++ splitAtNull serial ++ ")"

/-- The DeviceLabel derived from one battery identification block:
manufacturer (32 bytes), model (32), version (32), serial (32). -/
def batteryLabelOf (b : List Nat) : String :=
  let d := mkDecoder WordOrder.little b
  let (manu, d1) := decode_string d 32
  let (_, d2) := decode_string d1 32
  let (_, d3) := decode_string d2 32
  let (serial, _) := decode_string d3 32
  splitAtNull manu ++ "(" ++ splitAtNull serial ++ ")"

/-- One pass of an identification sweep: per device in order, a successful
read appends the derived label and sets the flag; a failed read falls
through to the next device (`continue` continues the `for` loop).  The
label list starts empty each pass; the flag carries in from outside the
pass (in the source, `connflag` is initialised before the meter `while`
loop and is NOT reset for the battery loop).  The stage advances after a
pass exactly when the returned flag is true (`if connflag: break`). -/
def identSweep (labelOf : List Nat → String) (reads : List (Option (List Nat)))
    (connflag : Bool) : List String × Bool :=
  reads.foldl (fun acc rb =>
    match rb with
    | some blk => (acc.1 ++ [labelOf blk], true)
    | none => acc) ([], connflag)

/-- One pass of the meter identification sweep. -/
def meterIdentSweep (reads : List (Option (List Nat))) (flag : Bool) :
    List String × Bool :=
  identSweep meterLabelOf reads flag

/-- One pass of the battery identification sweep. -/
def batteryIdentSweep (reads : List (Option (List Nat))) (flag : Bool) :
    List String × Bool :=
  identSweep batteryLabelOf reads flag

/-! ### Steady-state cycle control flow -/

/-- The read outcomes of one steady-state iteration: the inverter block
and the per-meter / per-battery blocks (`None` = the `read_regs` call
returned no block). -/
structure CycleReads where
  inverter : Option (List Nat)
  meters : List (Option (List Nat))
  batteries : List (Option (List Nat))

/-- The meter section of one iteration: meter `x` publishes its
measurement (its DeviceLabel) when its label exists and its read
succeeded; a failed read or missing label `continue`s to the NEXT meter. -/
def meterLoop (labels : List String) : List (Option (List Nat)) → Nat → List String
  | [], _ => []
  | rb :: rest, x =>
    (if labels.length < x then []
     else match rb with
          | some _ => [labels.getD (x - 1) ""]
          | none => []) ++ meterLoop labels rest (x + 1)

/-- The battery section of one iteration.  There is no label guard in the
source: on a SUCCESSFUL read, `dictBattery[x-1]` raises `IndexError` when
the label list is too short (reachable after a partial identification
sweep); the exception is caught by the iteration's outer handler, so the
cycle's REMAINING battery publishes are abandoned.  A failed read
`continue`s to the next battery without touching the label list. -/
def batteryLoop (labels : List String) : List (Option (List Nat)) → Nat → List String
  | [], _ => []
  | rb :: rest, x =>
    match rb with
    | some _ =>
      if labels.length < x then []
      else labels.getD (x - 1) "" :: batteryLoop labels rest (x + 1)
    | none => batteryLoop labels rest (x + 1)

/-- The measurements published by one steady-state iteration.  A failed
INVERTER read executes `continue` on the outer `while True`, so the whole
iteration is abandoned — no meter and no battery is read or published
that cycle; otherwise the inverter publishes and the meter and battery
loops run. -/
def steadyCycle (mlabels blabels : List String) (r : CycleReads) : List String :=
  match r.inverter with
  | none => []
  | some _ => "Inverter" :: (meterLoop mlabels r.meters 1 ++ batteryLoop blabels r.batteries 1)

/-! ### Scale-factor seek procedures (the inline group-decoding pattern) -/

/-- Sequentially decode `n` unsigned 16-bit fields (each `trunc_float`ed
as in the source), returning the raw values. -/
def readU16Group : Nat → PayloadDecoder → List ℚ × PayloadDecoder
  | 0, d => ([], d)
  | n + 1, d =>
    let (v, d1) := decode_16bit_uint d
    let (vs, d2) := readU16Group n d1
    (trunc_float (v : ℚ) :: vs, d2)

/-- Sequentially decode `n` unsigned 16-bit fields, applying a scale
factor to each value as it is decoded. -/
def readU16GroupScaled (sf : ℚ) : Nat → PayloadDecoder → List ℚ × PayloadDecoder
  | 0, d => ([], d)
  | n + 1, d =>
    let (v, d1) := decode_16bit_uint d
    let (vs, d2) := readU16GroupScaled sf n d1
    (trunc_float (v : ℚ) * sf :: vs, d2)

/-- Group decode, retroactive form: decode the `n` fields sequentially,
then decode the signed scale factor stored right after them, and apply it
to all the values afterwards.  The cursor ends just past the scale-factor
word — the pure sequential advance over the group. -/
def decodeGroupRetro (n : Nat) (d : PayloadDecoder) : List ℚ × PayloadDecoder :=
  let (vs, d1) := readU16Group n d
  let (e, d2) := decode_16bit_int d1
  (vs.map (fun v => v * (10 : ℚ) ^ e), d2)

/-- Group decode, peek form (the pattern of the source): seek forward over
the `n` fields, decode the scale factor, seek back to the start of the
group, decode the fields forward applying the factor, and advance past
the scale-factor word (in the source this final advance is folded into
the next group's seek). -/
def decodeGroupPeek (n : Nat) (d : PayloadDecoder) : List ℚ × PayloadDecoder :=
  let (e, d1) := decode_16bit_int (skip_bytes d (2 * (n : Int)))
  let (vs, d2) := readU16GroupScaled ((10 : ℚ) ^ e) n (skip_bytes d1 (-(2 * (n : Int) + 2)))
  (vs, skip_bytes d2 2)

/-! ### Concrete blocks used by the counterexamples -/

/-- A meter telemetry block whose `M_AC_Current` register (word 2) holds
the raw value 65535 and whose scale-factor registers are all 0. -/
def c1Block : List Nat := (List.replicate 105 0).set 2 65535

/-- An inverter telemetry block whose `AC_Energy_WH` accumulator (words
24/25) holds 1 and whose energy scale-factor register (word 26) holds
65535 (= -1 as a signed 16-bit value). -/
def c5Block : List Nat := ((List.replicate 50 0).set 25 1).set 26 65535

/-- A battery telemetry block with every register at the all-ones
pattern. -/
def c10Block : List Nat := List.replicate 72 65535

/-- An all-zero meter identification block (its DeviceLabel is `"()"`). -/
def c4Block : List Nat := List.replicate 65 0

/-- A two-register block encoding a 32-bit value under a chosen word
order (the synthetic test block of the word-order property). -/
def encode32 : WordOrder → Nat → List Nat
  | WordOrder.big, v => [v / 65536, v % 65536]
  | WordOrder.little, v => [v % 65536, v / 65536]

/-! ### Entry-pattern lemmas -/

lemma trunc_float_natCast (n : Nat) : trunc_float (n : ℚ) = n := by
  unfold trunc_float
  rw [show ((n : ℚ) * 100) = ((n * 100 : ℕ) : ℚ) by push_cast; ring, round_natCast]
  push_cast
  exact mul_div_cancel_right₀ _ (by norm_num)

lemma trunc_float_intCast (z : ℤ) : trunc_float (z : ℚ) = z := by
  unfold trunc_float
  rw [show ((z : ℚ) * 100) = ((z * 100 : ℤ) : ℚ) by push_cast; ring, round_intCast]
  push_cast
  exact mul_div_cancel_right₀ _ (by norm_num)

lemma toI16_lt (w : Nat) : toI16 w < 32768 := by
  unfold toI16
  split <;> omega

lemma toI16_le (w : Nat) : -32768 ≤ toI16 w := by
  unfold toI16
  split <;> omega

lemma u16RawEntry_eq (d : PayloadDecoder) :
    u16RawEntry d
      = (rawSpecV (wordAt d (d.ptr / 2)), ⟨d.wordorder, d.words, d.ptr + 2⟩) := by
  unfold u16RawEntry decode_16bit_uint rawSpecV
  dsimp only
  rw [trunc_float_natCast]
  rcases le_or_lt 65535 (wordAt d (d.ptr / 2)) with h | h
  · rw [if_neg (not_lt.mpr (by exact_mod_cast h)), if_pos h]
  · rw [if_pos (by exact_mod_cast h), if_neg (not_le.mpr h)]

lemma u16Entry_eq (sf : ℚ) (d : PayloadDecoder) :
    u16Entry sf d
      = (u16SpecV (wordAt d (d.ptr / 2)) sf, ⟨d.wordorder, d.words, d.ptr + 2⟩) := by
  unfold u16Entry decode_16bit_uint u16SpecV
  dsimp only
  rw [trunc_float_natCast]
  rcases le_or_lt 65535 (wordAt d (d.ptr / 2)) with h | h
  · rw [if_neg (not_lt.mpr (by exact_mod_cast h)), if_pos h]
  · rw [if_pos (by exact_mod_cast h), if_neg (not_le.mpr h)]

lemma i16Entry_eq (t sf : ℚ) (ht : 32768 ≤ t) (d : PayloadDecoder) :
    i16Entry t sf d
      = (i16SpecV (wordAt d (d.ptr / 2)) sf, ⟨d.wordorder, d.words, d.ptr + 2⟩) := by
  unfold i16Entry decode_16bit_int i16SpecV
  dsimp only
  rw [trunc_float_intCast, if_pos]
  have h1 : ((toI16 (wordAt d (d.ptr / 2)) : ℤ) : ℚ) < 32768 := by
    exact_mod_cast toI16_lt _
  exact lt_of_lt_of_le h1 ht

lemma i16Entry65535_eq (sf : ℚ) (d : PayloadDecoder) :
    i16Entry 65535 sf d
      = (i16SpecV (wordAt d (d.ptr / 2)) sf, ⟨d.wordorder, d.words, d.ptr + 2⟩) :=
  i16Entry_eq 65535 sf (by norm_num) d

lemma i16Entry32768_eq (sf : ℚ) (d : PayloadDecoder) :
    i16Entry 32768 sf d
      = (i16SpecV (wordAt d (d.ptr / 2)) sf, ⟨d.wordorder, d.words, d.ptr + 2⟩) :=
  i16Entry_eq 32768 sf (by norm_num) d

lemma u32Entry_eq (sf : ℚ) (d : PayloadDecoder) :
    u32Entry sf d
      = (u32SpecV (assemble32 d.wordorder (wordAt d (d.ptr / 2)) (wordAt d (d.ptr / 2 + 1))) sf,
         ⟨d.wordorder, d.words, d.ptr + 4⟩) := by
  unfold u32Entry decode_32bit_uint u32SpecV
  dsimp only
  rw [trunc_float_natCast]
  rcases le_or_lt 4294967295 (assemble32 d.wordorder (wordAt d (d.ptr / 2)) (wordAt d (d.ptr / 2 + 1))) with h | h
  · rw [if_neg (not_lt.mpr (by exact_mod_cast h)), if_pos h]
  · rw [if_pos (by exact_mod_cast h), if_neg (not_le.mpr h)]

/-! ### Master decode lemmas: each device model in spec form -/

/-- The inverter field map equals its specification form. -/
theorem inverterFields_eq (b : List Nat) : inverterFields b = inverterSpecFields b := by
  set_option maxRecDepth 8000 in
  simp [inverterFields, inverterSpecFields, inverterDecoder, mkDecoder, u16RawEntry_eq,
    u16Entry_eq, i16Entry65535_eq, u32Entry_eq, decode_16bit_int, decode_16bit_uint,
    skip_bytes, wordAt, assemble32, rawSpec, u16Spec, i16Spec, u32SpecU, u32be, sfI, sfU]

/-- The meter field map equals its specification form. -/
theorem meterFields_eq (b : List Nat) : meterFields b = meterSpecFields b := by
  set_option maxRecDepth 8000 in
  simp [meterFields, meterSpecFields, meterDecoder, mkDecoder, u16RawEntry_eq,
    i16Entry32768_eq, u32Entry_eq, decode_16bit_int, decode_16bit_uint, skip_bytes,
    wordAt, assemble32, rawSpec, i16Spec, u32SpecI, u32be, sfI]

/-- The battery field map equals its specification form. -/
theorem batteryFields_eq (b : List Nat) : batteryFields b = batterySpecFields b := by
  set_option maxRecDepth 8000 in
  simp [batteryFields, batterySpecFields, batteryDecoder, mkDecoder, decode_32bit_float,
    decode_32bit_uint, decode_64bit_uint, skip_bytes, wordAt,
    assemble32, assemble64, u32le, u64le]

/-! ### Sequential-group lemmas (scale-factor seek) -/

lemma readU16Group_snd (n : Nat) : ∀ d : PayloadDecoder,
    (readU16Group n d).2 = ⟨d.wordorder, d.words, d.ptr + 2 * n⟩ := by
  induction n with
  | zero =>
    intro d
    simp [readU16Group]
  | succ n ih =>
    intro d
    simp [readU16Group, decode_16bit_uint, ih]
    omega

lemma readU16GroupScaled_eq (sf : ℚ) (n : Nat) : ∀ d : PayloadDecoder,
    readU16GroupScaled sf n d
      = ((readU16Group n d).1.map (fun v => v * sf), (readU16Group n d).2) := by
  induction n with
  | zero =>
    intro d
    simp [readU16GroupScaled, readU16Group]
  | succ n ih =>
    intro d
    simp [readU16GroupScaled, readU16Group, decode_16bit_uint, ih]

/-- C9: decoding a group of fields A, B, C and applying their shared scale
factor (stored after the group) retroactively gives the same values and
the same final cursor as seeking forward to the scale factor, decoding
it, seeking back, applying it while decoding the fields forward, and
advancing past the scale-factor word; the final cursor is the pure
sequential advance `start + 2*n + 2`, with no net drift. -/
theorem c9_scale_factor_seek_invariant (n : Nat) (d : PayloadDecoder) :
    decodeGroupPeek n d = decodeGroupRetro n d
      ∧ (decodeGroupRetro n d).2 = ⟨d.wordorder, d.words, d.ptr + (2 * n + 2)⟩ := by
  obtain ⟨wo, ws, p⟩ := d
  have h1 : skip_bytes ⟨wo, ws, p⟩ (2 * (n : Int)) = ⟨wo, ws, p + 2 * n⟩ := by
    simp [skip_bytes]
    omega
  have h2 : skip_bytes ⟨wo, ws, p + 2 * n + 2⟩ (-(2 * (n : Int) + 2)) = ⟨wo, ws, p⟩ := by
    simp [skip_bytes]
    omega
  have h3 : skip_bytes ⟨wo, ws, p + 2 * n⟩ (2 : Int) = ⟨wo, ws, p + 2 * n + 2⟩ := by
    simp [skip_bytes]
    omega
  constructor
  · unfold decodeGroupPeek decodeGroupRetro
    rw [h1]
    dsimp only [decode_16bit_int]
    rw [h2, readU16GroupScaled_eq, readU16Group_snd]
    simp [h3]
  · unfold decodeGroupRetro
    dsimp only [decode_16bit_int]
    rw [readU16Group_snd]
    simp
    omega

/-- C7: battery blocks are decoded with little word order while inverter
and meter blocks use big word order (within big byte order): a two-word
test block built under a convention round-trips under the matching
model's decoder, and the mismatched decoders disagree on the block
encoding the value 1. -/
theorem c7_word_order (v : Nat) (hv : v < 4294967296) :
    (decode_32bit_uint (inverterDecoder (encode32 WordOrder.big v))).1 = v
      ∧ (decode_32bit_uint (meterDecoder (encode32 WordOrder.big v))).1 = v
      ∧ (decode_32bit_uint (batteryDecoder (encode32 WordOrder.little v))).1 = v
      ∧ (decode_32bit_uint (batteryDecoder (encode32 WordOrder.big 1))).1 ≠ 1
      ∧ (decode_32bit_uint (inverterDecoder (encode32 WordOrder.little 1))).1 ≠ 1 := by
  refine ⟨?_, ?_, ?_, by decide, by decide⟩ <;>
  · simp [decode_32bit_uint, inverterDecoder, meterDecoder, batteryDecoder, mkDecoder,
      encode32, wordAt, regW, assemble32]
    omega

/-- C7 witness: the word-order property at the concrete value 305419896
(0x12345678). -/
theorem c7_word_order_witness :
    (decode_32bit_uint (inverterDecoder (encode32 WordOrder.big 305419896))).1 = 305419896
      ∧ (decode_32bit_uint (meterDecoder (encode32 WordOrder.big 305419896))).1 = 305419896
      ∧ (decode_32bit_uint (batteryDecoder (encode32 WordOrder.little 305419896))).1 = 305419896
      ∧ (decode_32bit_uint (batteryDecoder (encode32 WordOrder.big 1))).1 ≠ 1
      ∧ (decode_32bit_uint (inverterDecoder (encode32 WordOrder.little 1))).1 ≠ 1 :=
  c7_word_order 305419896 (by norm_num)

/-- C6: every 32-bit accumulator field (the inverter's `AC_Energy_WH` and
the meter's eight exported/imported accumulators) is zeroed exactly when
its raw 32-bit value reaches the sentinel 4294967295, and is otherwise
the raw value times its group's `10^e` scale factor (`u32SpecV` is that
rule verbatim, here shown at one value/factor pair and proven as the
published value of all nine fields).  The scaled values are asserted for
cycles whose energy exponents lie in Python's float range (for `e ≥ 309`
the source raises `OverflowError` in the multiply and publishes nothing
that cycle). -/
theorem c6_accumulator_sentinel (b m : List Nat)
    (hb : regW b 26 ≤ 308)
    (hm : -323 ≤ toI16 (regW m 54) ∧ toI16 (regW m 54) ≤ 308) :
    (∀ v : Nat, ∀ sf : ℚ, u32SpecV v sf = if 4294967295 ≤ v then 0 else (v : ℚ) * sf)
      ∧ (inverterFields b).getD 17 ("", 0) = ("AC_Energy_WH", u32SpecV (u32be b 24) (sfU b 26))
      ∧ (meterFields m).getD 31 ("", 0) = ("M_Exported", u32SpecV (u32be m 38) (sfI m 54))
      ∧ (meterFields m).getD 32 ("", 0) = ("M_Exported_A", u32SpecV (u32be m 40) (sfI m 54))
      ∧ (meterFields m).getD 33 ("", 0) = ("M_Exported_B", u32SpecV (u32be m 42) (sfI m 54))
      ∧ (meterFields m).getD 34 ("", 0) = ("M_Exported_C", u32SpecV (u32be m 44) (sfI m 54))
      ∧ (meterFields m).getD 35 ("", 0) = ("M_Imported", u32SpecV (u32be m 46) (sfI m 54))
      ∧ (meterFields m).getD 36 ("", 0) = ("M_Imported_A", u32SpecV (u32be m 48) (sfI m 54))
      ∧ (meterFields m).getD 37 ("", 0) = ("M_Imported_B", u32SpecV (u32be m 50) (sfI m 54))
      ∧ (meterFields m).getD 38 ("", 0) = ("M_Imported_C", u32SpecV (u32be m 52) (sfI m 54)) := by
  rw [inverterFields_eq, meterFields_eq]
  exact ⟨fun v sf => rfl, rfl, rfl, rfl, rfl, rfl, rfl, rfl, rfl, rfl⟩

/-- C6 witness: the accumulator rule at the all-zero blocks (energy
exponents 0, inside the float domain), with the `u32SpecV` rule
instantiated at the sentinel value itself. -/
theorem c6_accumulator_sentinel_witness :
    (u32SpecV 4294967295 ((10 : ℚ) ^ (3 : ℕ))
        = if 4294967295 ≤ 4294967295 then 0 else ((4294967295 : ℕ) : ℚ) * ((10 : ℚ) ^ (3 : ℕ)))
      ∧ (inverterFields (List.replicate 50 0)).getD 17 ("", 0) = ("AC_Energy_WH", u32SpecV (u32be (List.replicate 50 0) 24) (sfU (List.replicate 50 0) 26))
      ∧ (meterFields (List.replicate 105 0)).getD 31 ("", 0) = ("M_Exported", u32SpecV (u32be (List.replicate 105 0) 38) (sfI (List.replicate 105 0) 54))
      ∧ (meterFields (List.replicate 105 0)).getD 32 ("", 0) = ("M_Exported_A", u32SpecV (u32be (List.replicate 105 0) 40) (sfI (List.replicate 105 0) 54))
      ∧ (meterFields (List.replicate 105 0)).getD 33 ("", 0) = ("M_Exported_B", u32SpecV (u32be (List.replicate 105 0) 42) (sfI (List.replicate 105 0) 54))
      ∧ (meterFields (List.replicate 105 0)).getD 34 ("", 0) = ("M_Exported_C", u32SpecV (u32be (List.replicate 105 0) 44) (sfI (List.replicate 105 0) 54))
      ∧ (meterFields (List.replicate 105 0)).getD 35 ("", 0) = ("M_Imported", u32SpecV (u32be (List.replicate 105 0) 46) (sfI (List.replicate 105 0) 54))
      ∧ (meterFields (List.replicate 105 0)).getD 36 ("", 0) = ("M_Imported_A", u32SpecV (u32be (List.replicate 105 0) 48) (sfI (List.replicate 105 0) 54))
      ∧ (meterFields (List.replicate 105 0)).getD 37 ("", 0) = ("M_Imported_B", u32SpecV (u32be (List.replicate 105 0) 50) (sfI (List.replicate 105 0) 54))
      ∧ (meterFields (List.replicate 105 0)).getD 38 ("", 0) = ("M_Imported_C", u32SpecV (u32be (List.replicate 105 0) 52) (sfI (List.replicate 105 0) 54)) := by
  obtain ⟨h0, hrest⟩ :=
    c6_accumulator_sentinel (List.replicate 50 0) (List.replicate 105 0)
      (by decide) (by decide)
  exact ⟨h0 4294967295 ((10 : ℚ) ^ (3 : ℕ)), hrest⟩

/-- C1 (amended): the 16-bit fields decoded UNSIGNED — the inverter's
SunSpec DID/length, AC currents, AC voltages, AC frequency, DC
current/voltage and the two status fields, and the meter's
`M_SunSpec_DID`/`M_SunSpec_Length` — are zeroed exactly when the raw
register value reaches 65535, and the scaled ones otherwise publish
`trunc2(v) * 10^e = v * 10^e` (`trunc2` is applied to the integer raw
value BEFORE scaling, so the scaled result is not re-rounded).  Every
OTHER meter 16-bit field and the inverter's power, VA, VAR, power-factor
and temperature fields are decoded SIGNED (`i16Spec`) against thresholds
(65535 resp. 32768) that a signed 16-bit value never reaches, so they
are never zeroed: raw 65535 publishes `-1 * 10^e`, not 0.0.  The scaled
formulas are asserted for cycles whose group scale exponents lie in
Python's float range `[-323, 308]`; at `e ≥ 309` the source raises
`OverflowError` in the scale multiply and the cycle publishes nothing. -/
theorem c1_sixteen_bit_fields_amended (b m : List Nat)
    (hb : ∀ k ∈ [6, 13, 15, 17, 19, 21, 23, 28, 30, 32, 37],
      -323 ≤ toI16 (regW b k) ∧ toI16 (regW b k) ≤ 308)
    (hm : ∀ k ∈ [6, 15, 17, 22, 27, 32, 37],
      -323 ≤ toI16 (regW m k) ∧ toI16 (regW m k) ≤ 308) :
    (inverterFields b).getD 0 ("", 0) = ("SunSpec_DID", rawSpec b 0)
      ∧ (inverterFields b).getD 1 ("", 0) = ("SunSpec_Length", rawSpec b 1)
      ∧ (inverterFields b).getD 2 ("", 0) = ("AC_Current", u16Spec b 2 6)
      ∧ (inverterFields b).getD 3 ("", 0) = ("AC_CurrentA", u16Spec b 3 6)
      ∧ (inverterFields b).getD 4 ("", 0) = ("AC_CurrentB", u16Spec b 4 6)
      ∧ (inverterFields b).getD 5 ("", 0) = ("AC_CurrentC", u16Spec b 5 6)
      ∧ (inverterFields b).getD 6 ("", 0) = ("AC_VoltageAB", u16Spec b 7 13)
      ∧ (inverterFields b).getD 7 ("", 0) = ("AC_VoltageBC", u16Spec b 8 13)
      ∧ (inverterFields b).getD 8 ("", 0) = ("AC_VoltageCA", u16Spec b 9 13)
      ∧ (inverterFields b).getD 9 ("", 0) = ("AC_VoltageAN", u16Spec b 10 13)
      ∧ (inverterFields b).getD 10 ("", 0) = ("AC_VoltageBN", u16Spec b 11 13)
      ∧ (inverterFields b).getD 11 ("", 0) = ("AC_VoltageCN", u16Spec b 12 13)
      ∧ (inverterFields b).getD 12 ("", 0) = ("AC_Power", i16Spec b 14 15)
      ∧ (inverterFields b).getD 13 ("", 0) = ("AC_Frequency", u16Spec b 16 17)
      ∧ (inverterFields b).getD 14 ("", 0) = ("AC_VA", i16Spec b 18 19)
      ∧ (inverterFields b).getD 15 ("", 0) = ("AC_VAR", i16Spec b 20 21)
      ∧ (inverterFields b).getD 16 ("", 0) = ("AC_PF", i16Spec b 22 23)
      ∧ (inverterFields b).getD 18 ("", 0) = ("DC_Current", u16Spec b 27 28)
      ∧ (inverterFields b).getD 19 ("", 0) = ("DC_Voltage", u16Spec b 29 30)
      ∧ (inverterFields b).getD 20 ("", 0) = ("DC_Power", i16Spec b 31 32)
      ∧ (inverterFields b).getD 21 ("", 0) = ("Temp_Sink", i16Spec b 34 37)
      ∧ (inverterFields b).getD 22 ("", 0) = ("Status", rawSpec b 38)
      ∧ (inverterFields b).getD 23 ("", 0) = ("Status_Vendor", rawSpec b 39)
      ∧ (meterFields m).getD 0 ("", 0) = ("M_SunSpec_DID", rawSpec m 0)
      ∧ (meterFields m).getD 1 ("", 0) = ("M_SunSpec_Length", rawSpec m 1)
      ∧ (meterFields m).getD 2 ("", 0) = ("M_AC_Current", i16Spec m 2 6)
      ∧ (meterFields m).getD 3 ("", 0) = ("M_AC_CurrentA", i16Spec m 3 6)
      ∧ (meterFields m).getD 4 ("", 0) = ("M_AC_CurrentB", i16Spec m 4 6)
      ∧ (meterFields m).getD 5 ("", 0) = ("M_AC_CurrentC", i16Spec m 5 6)
      ∧ (meterFields m).getD 6 ("", 0) = ("M_AC_VoltageLN", i16Spec m 7 15)
      ∧ (meterFields m).getD 7 ("", 0) = ("M_AC_VoltageAN", i16Spec m 8 15)
      ∧ (meterFields m).getD 8 ("", 0) = ("M_AC_VoltageBN", i16Spec m 9 15)
      ∧ (meterFields m).getD 9 ("", 0) = ("M_AC_VoltageCN", i16Spec m 10 15)
      ∧ (meterFields m).getD 10 ("", 0) = ("M_AC_VoltageLL", i16Spec m 11 15)
      ∧ (meterFields m).getD 11 ("", 0) = ("M_AC_VoltageAB", i16Spec m 12 15)
      ∧ (meterFields m).getD 12 ("", 0) = ("M_AC_VoltageBC", i16Spec m 13 15)
      ∧ (meterFields m).getD 13 ("", 0) = ("M_AC_VoltageCA", i16Spec m 14 15)
      ∧ (meterFields m).getD 14 ("", 0) = ("M_AC_Frequency", i16Spec m 16 17)
      ∧ (meterFields m).getD 15 ("", 0) = ("M_AC_Power", i16Spec m 18 22)
      ∧ (meterFields m).getD 16 ("", 0) = ("M_AC_Power_A", i16Spec m 19 22)
      ∧ (meterFields m).getD 17 ("", 0) = ("M_AC_Power_B", i16Spec m 20 22)
      ∧ (meterFields m).getD 18 ("", 0) = ("M_AC_Power_C", i16Spec m 21 22)
      ∧ (meterFields m).getD 19 ("", 0) = ("M_AC_VA", i16Spec m 23 27)
      ∧ (meterFields m).getD 20 ("", 0) = ("M_AC_VA_A", i16Spec m 24 27)
      ∧ (meterFields m).getD 21 ("", 0) = ("M_AC_VA_B", i16Spec m 25 27)
      ∧ (meterFields m).getD 22 ("", 0) = ("M_AC_VA_C", i16Spec m 26 27)
      ∧ (meterFields m).getD 23 ("", 0) = ("M_AC_VAR", i16Spec m 28 32)
      ∧ (meterFields m).getD 24 ("", 0) = ("M_AC_VAR_A", i16Spec m 29 32)
      ∧ (meterFields m).getD 25 ("", 0) = ("M_AC_VAR_B", i16Spec m 30 32)
      ∧ (meterFields m).getD 26 ("", 0) = ("M_AC_VAR_C", i16Spec m 31 32)
      ∧ (meterFields m).getD 27 ("", 0) = ("M_AC_PF", i16Spec m 33 37)
      ∧ (meterFields m).getD 28 ("", 0) = ("M_AC_PF_A", i16Spec m 34 37)
      ∧ (meterFields m).getD 29 ("", 0) = ("M_AC_PF_B", i16Spec m 35 37)
      ∧ (meterFields m).getD 30 ("", 0) = ("M_AC_PF_C", i16Spec m 36 37) := by
  rw [inverterFields_eq, meterFields_eq]
  exact ⟨rfl, rfl, rfl, rfl, rfl, rfl, rfl, rfl, rfl, rfl, rfl, rfl, rfl, rfl, rfl, rfl, rfl, rfl, rfl, rfl, rfl, rfl, rfl, rfl, rfl, rfl, rfl, rfl, rfl, rfl, rfl, rfl, rfl, rfl, rfl, rfl, rfl, rfl, rfl, rfl, rfl, rfl, rfl, rfl, rfl, rfl, rfl, rfl, rfl, rfl, rfl, rfl, rfl, rfl⟩

/-- C1 witness: the amended field rules at the all-zero blocks (every
scale exponent is 0, inside the float domain). -/
theorem c1_sixteen_bit_fields_amended_witness :
    (inverterFields (List.replicate 50 0)).getD 0 ("", 0) = ("SunSpec_DID", rawSpec (List.replicate 50 0) 0)
      ∧ (inverterFields (List.replicate 50 0)).getD 1 ("", 0) = ("SunSpec_Length", rawSpec (List.replicate 50 0) 1)
      ∧ (inverterFields (List.replicate 50 0)).getD 2 ("", 0) = ("AC_Current", u16Spec (List.replicate 50 0) 2 6)
      ∧ (inverterFields (List.replicate 50 0)).getD 3 ("", 0) = ("AC_CurrentA", u16Spec (List.replicate 50 0) 3 6)
      ∧ (inverterFields (List.replicate 50 0)).getD 4 ("", 0) = ("AC_CurrentB", u16Spec (List.replicate 50 0) 4 6)
      ∧ (inverterFields (List.replicate 50 0)).getD 5 ("", 0) = ("AC_CurrentC", u16Spec (List.replicate 50 0) 5 6)
      ∧ (inverterFields (List.replicate 50 0)).getD 6 ("", 0) = ("AC_VoltageAB", u16Spec (List.replicate 50 0) 7 13)
      ∧ (inverterFields (List.replicate 50 0)).getD 7 ("", 0) = ("AC_VoltageBC", u16Spec (List.replicate 50 0) 8 13)
      ∧ (inverterFields (List.replicate 50 0)).getD 8 ("", 0) = ("AC_VoltageCA", u16Spec (List.replicate 50 0) 9 13)
      ∧ (inverterFields (List.replicate 50 0)).getD 9 ("", 0) = ("AC_VoltageAN", u16Spec (List.replicate 50 0) 10 13)
      ∧ (inverterFields (List.replicate 50 0)).getD 10 ("", 0) = ("AC_VoltageBN", u16Spec (List.replicate 50 0) 11 13)
      ∧ (inverterFields (List.replicate 50 0)).getD 11 ("", 0) = ("AC_VoltageCN", u16Spec (List.replicate 50 0) 12 13)
      ∧ (inverterFields (List.replicate 50 0)).getD 12 ("", 0) = ("AC_Power", i16Spec (List.replicate 50 0) 14 15)
      ∧ (inverterFields (List.replicate 50 0)).getD 13 ("", 0) = ("AC_Frequency", u16Spec (List.replicate 50 0) 16 17)
      ∧ (inverterFields (List.replicate 50 0)).getD 14 ("", 0) = ("AC_VA", i16Spec (List.replicate 50 0) 18 19)
      ∧ (inverterFields (List.replicate 50 0)).getD 15 ("", 0) = ("AC_VAR", i16Spec (List.replicate 50 0) 20 21)
      ∧ (inverterFields (List.replicate 50 0)).getD 16 ("", 0) = ("AC_PF", i16Spec (List.replicate 50 0) 22 23)
      ∧ (inverterFields (List.replicate 50 0)).getD 18 ("", 0) = ("DC_Current", u16Spec (List.replicate 50 0) 27 28)
      ∧ (inverterFields (List.replicate 50 0)).getD 19 ("", 0) = ("DC_Voltage", u16Spec (List.replicate 50 0) 29 30)
      ∧ (inverterFields (List.replicate 50 0)).getD 20 ("", 0) = ("DC_Power", i16Spec (List.replicate 50 0) 31 32)
      ∧ (inverterFields (List.replicate 50 0)).getD 21 ("", 0) = ("Temp_Sink", i16Spec (List.replicate 50 0) 34 37)
      ∧ (inverterFields (List.replicate 50 0)).getD 22 ("", 0) = ("Status", rawSpec (List.replicate 50 0) 38)
      ∧ (inverterFields (List.replicate 50 0)).getD 23 ("", 0) = ("Status_Vendor", rawSpec (List.replicate 50 0) 39)
      ∧ (meterFields (List.replicate 105 0)).getD 0 ("", 0) = ("M_SunSpec_DID", rawSpec (List.replicate 105 0) 0)
      ∧ (meterFields (List.replicate 105 0)).getD 1 ("", 0) = ("M_SunSpec_Length", rawSpec (List.replicate 105 0) 1)
      ∧ (meterFields (List.replicate 105 0)).getD 2 ("", 0) = ("M_AC_Current", i16Spec (List.replicate 105 0) 2 6)
      ∧ (meterFields (List.replicate 105 0)).getD 3 ("", 0) = ("M_AC_CurrentA", i16Spec (List.replicate 105 0) 3 6)
      ∧ (meterFields (List.replicate 105 0)).getD 4 ("", 0) = ("M_AC_CurrentB", i16Spec (List.replicate 105 0) 4 6)
      ∧ (meterFields (List.replicate 105 0)).getD 5 ("", 0) = ("M_AC_CurrentC", i16Spec (List.replicate 105 0) 5 6)
      ∧ (meterFields (List.replicate 105 0)).getD 6 ("", 0) = ("M_AC_VoltageLN", i16Spec (List.replicate 105 0) 7 15)
      ∧ (meterFields (List.replicate 105 0)).getD 7 ("", 0) = ("M_AC_VoltageAN", i16Spec (List.replicate 105 0) 8 15)
      ∧ (meterFields (List.replicate 105 0)).getD 8 ("", 0) = ("M_AC_VoltageBN", i16Spec (List.replicate 105 0) 9 15)
      ∧ (meterFields (List.replicate 105 0)).getD 9 ("", 0) = ("M_AC_VoltageCN", i16Spec (List.replicate 105 0) 10 15)
      ∧ (meterFields (List.replicate 105 0)).getD 10 ("", 0) = ("M_AC_VoltageLL", i16Spec (List.replicate 105 0) 11 15)
      ∧ (meterFields (List.replicate 105 0)).getD 11 ("", 0) = ("M_AC_VoltageAB", i16Spec (List.replicate 105 0) 12 15)
      ∧ (meterFields (List.replicate 105 0)).getD 12 ("", 0) = ("M_AC_VoltageBC", i16Spec (List.replicate 105 0) 13 15)
      ∧ (meterFields (List.replicate 105 0)).getD 13 ("", 0) = ("M_AC_VoltageCA", i16Spec (List.replicate 105 0) 14 15)
      ∧ (meterFields (List.replicate 105 0)).getD 14 ("", 0) = ("M_AC_Frequency", i16Spec (List.replicate 105 0) 16 17)
      ∧ (meterFields (List.replicate 105 0)).getD 15 ("", 0) = ("M_AC_Power", i16Spec (List.replicate 105 0) 18 22)
      ∧ (meterFields (List.replicate 105 0)).getD 16 ("", 0) = ("M_AC_Power_A", i16Spec (List.replicate 105 0) 19 22)
      ∧ (meterFields (List.replicate 105 0)).getD 17 ("", 0) = ("M_AC_Power_B", i16Spec (List.replicate 105 0) 20 22)
      ∧ (meterFields (List.replicate 105 0)).getD 18 ("", 0) = ("M_AC_Power_C", i16Spec (List.replicate 105 0) 21 22)
      ∧ (meterFields (List.replicate 105 0)).getD 19 ("", 0) = ("M_AC_VA", i16Spec (List.replicate 105 0) 23 27)
      ∧ (meterFields (List.replicate 105 0)).getD 20 ("", 0) = ("M_AC_VA_A", i16Spec (List.replicate 105 0) 24 27)
      ∧ (meterFields (List.replicate 105 0)).getD 21 ("", 0) = ("M_AC_VA_B", i16Spec (List.replicate 105 0) 25 27)
      ∧ (meterFields (List.replicate 105 0)).getD 22 ("", 0) = ("M_AC_VA_C", i16Spec (List.replicate 105 0) 26 27)
      ∧ (meterFields (List.replicate 105 0)).getD 23 ("", 0) = ("M_AC_VAR", i16Spec (List.replicate 105 0) 28 32)
      ∧ (meterFields (List.replicate 105 0)).getD 24 ("", 0) = ("M_AC_VAR_A", i16Spec (List.replicate 105 0) 29 32)
      ∧ (meterFields (List.replicate 105 0)).getD 25 ("", 0) = ("M_AC_VAR_B", i16Spec (List.replicate 105 0) 30 32)
      ∧ (meterFields (List.replicate 105 0)).getD 26 ("", 0) = ("M_AC_VAR_C", i16Spec (List.replicate 105 0) 31 32)
      ∧ (meterFields (List.replicate 105 0)).getD 27 ("", 0) = ("M_AC_PF", i16Spec (List.replicate 105 0) 33 37)
      ∧ (meterFields (List.replicate 105 0)).getD 28 ("", 0) = ("M_AC_PF_A", i16Spec (List.replicate 105 0) 34 37)
      ∧ (meterFields (List.replicate 105 0)).getD 29 ("", 0) = ("M_AC_PF_B", i16Spec (List.replicate 105 0) 35 37)
      ∧ (meterFields (List.replicate 105 0)).getD 30 ("", 0) = ("M_AC_PF_C", i16Spec (List.replicate 105 0) 36 37) :=
  c1_sixteen_bit_fields_amended (List.replicate 50 0) (List.replicate 105 0)
    (by decide) (by decide)

/-- C1 counterexample: a meter 16-bit field whose raw register holds
65535 (so `v >= 65535`) is NOT normalized to 0.0 — it is decoded signed
as -1 and published as `-1 * 10^0 = -1`. -/
theorem c1_counterexample :
    regW c1Block 2 = 65535
      ∧ ((meterFields c1Block).getD 2 ("", 0)).2 = -1
      ∧ ((-1 : ℚ) ≠ 0) := by
  refine ⟨by decide, ?_, by norm_num⟩
  have hsf : sfI c1Block 6 = 1 := by
    rw [sfI, show regW c1Block 6 = 0 from by decide, show toI16 0 = 0 from by decide]
    exact zpow_zero 10
  rw [meterFields_eq]
  show i16Spec c1Block 2 6 = -1
  unfold i16Spec i16SpecV
  rw [show regW c1Block 2 = 65535 from by decide, hsf,
    show toI16 65535 = -1 from by decide]
  norm_num

/-- C5: the source's decode of the inverter AC lifetime energy
scale-factor register (line 469, register 40095, byte offset 52 in the
block) is `decode_16bit_uint`: at the failing input (register value
65535) it yields the exponent 65535 — at or beyond 309 the Python scale
multiply raises `OverflowError`, so the cycle publishes nothing — while
the signed decode required by the specification (and used by every other
scale-factor read in the file) yields -1. -/
theorem c5_energy_exponent_divergence :
    (decode_16bit_uint { wordorder := WordOrder.big, words := c5Block, ptr := 52 }).1 = 65535
      ∧ (decode_16bit_int { wordorder := WordOrder.big, words := c5Block, ptr := 52 }).1 = -1
      ∧ (309 : ℕ) ≤ 65535 := by
  refine ⟨by decide, by decide, by norm_num⟩

/-- C10: every battery telemetry field (the float32 fields, the two
64-bit lifetime energy counters and the 32-bit status fields) is
published exactly as decoded — no sentinel-to-zero normalization, no
scale-factor multiplication, no rounding to 2 decimals (the spec-form map
applies none of them); in contrast, on an all-ones block the battery
`B_Status` publishes the raw sentinel 4294967295 while the inverter
(whose every field is sentinel-checked) publishes 0.0. -/
theorem c10_battery_fields_published_as_decoded :
    (∀ b : List Nat, batteryFields b = batterySpecFields b)
      ∧ ((batteryFields c10Block).getD 16 ("", 0)).2 = 4294967295
      ∧ ((inverterFields (List.replicate 50 65535)).getD 0 ("", 0)).2 = 0 := by
  refine ⟨batteryFields_eq, ?_, ?_⟩
  · rw [batteryFields_eq]
    decide
  · rw [inverterFields_eq]
    decide

/-! ### Identification-sweep lemmas -/

lemma identSweep_foldl (f : List Nat → String) (reads : List (Option (List Nat))) :
    ∀ acc : List String × Bool,
      reads.foldl (fun acc rb =>
          match rb with
          | some blk => (acc.1 ++ [f blk], true)
          | none => acc) acc
        = (acc.1 ++ (reads.filterMap id).map f, acc.2 || reads.any Option.isSome) := by
  induction reads with
  | nil =>
    intro acc
    simp
  | cons rb rest ih =>
    intro acc
    cases rb with
    | some blk =>
      simp [ih, List.filterMap_cons]
    | none =>
      simp [ih, List.filterMap_cons]

/-- C4 (amended): one pass of the meter (resp. battery) identification
sweep sets its flag exactly when the flag was already set or AT LEAST ONE
device read of the pass succeeded — not when all of them did — and stores
labels only for the successful reads, so the stage can advance with fewer
labels than configured devices; moreover the battery sweep reuses the
same flag, so once the meter stage has succeeded the battery stage
advances after its first pass even if every battery read failed. -/
theorem c4_ident_sweep_amended (reads : List (Option (List Nat))) (flag : Bool) :
    (meterIdentSweep reads flag).2 = (flag || reads.any Option.isSome)
      ∧ (meterIdentSweep reads flag).1 = (reads.filterMap id).map meterLabelOf
      ∧ (batteryIdentSweep reads flag).2 = (flag || reads.any Option.isSome)
      ∧ (batteryIdentSweep reads flag).1 = (reads.filterMap id).map batteryLabelOf
      ∧ (batteryIdentSweep reads true).2 = true := by
  unfold meterIdentSweep batteryIdentSweep identSweep
  rw [identSweep_foldl, identSweep_foldl, identSweep_foldl]
  simp

/-- C4 counterexample: with two meters configured, a pass in which meter
1 answers and meter 2 fails still sets the flag (the stage advances) and
stores only one label — the sweep is NOT retried until every meter has
succeeded within a single pass. -/
theorem c4_counterexample :
    (meterIdentSweep [some c4Block, none] false).2 = true
      ∧ (meterIdentSweep [some c4Block, none] false).1.length = 1 := by
  constructor
  · decide
  · decide

/-! ### Steady-state cycle lemmas -/

/-- C2 (amended): in steady state a failed METER read skips only that
meter's publish (the label guard and the read-failure branch `continue`
the meter loop), and a failed BATTERY read skips only that battery; but
a failed INVERTER read executes `continue` on the outer loop and abandons
the whole iteration — no meter and no battery is read or published that
cycle — and a SUCCESSFUL battery read whose DeviceLabel is missing raises
`IndexError`, aborting the cycle's remaining battery publishes.  The
battery-failure split therefore holds under the hypothesis that the label
list covers the indices traversed. -/
theorem c2_steady_cycle_amended :
    (∀ (ml bl : List String) (ms bs : List (Option (List Nat))),
        steadyCycle ml bl { inverter := none, meters := ms, batteries := bs } = [])
      ∧ (∀ (ml bl : List String) (blk : List Nat) (ms bs : List (Option (List Nat))),
          steadyCycle ml bl { inverter := some blk, meters := ms, batteries := bs }
            = "Inverter" :: (meterLoop ml ms 1 ++ batteryLoop bl bs 1))
      ∧ (∀ (ml : List String) (ms1 ms2 : List (Option (List Nat))) (x : Nat),
          meterLoop ml (ms1 ++ none :: ms2) x
            = meterLoop ml ms1 x ++ meterLoop ml ms2 (x + ms1.length + 1))
      ∧ (∀ (bl : List String) (bs1 bs2 : List (Option (List Nat))) (x : Nat),
          x + bs1.length + bs2.length ≤ bl.length →
            batteryLoop bl (bs1 ++ none :: bs2) x
              = batteryLoop bl bs1 x ++ batteryLoop bl bs2 (x + bs1.length + 1))
      ∧ (∀ (bl : List String) (blk : List Nat) (bs : List (Option (List Nat))) (x : Nat),
          bl.length < x → batteryLoop bl (some blk :: bs) x = []) := by
  refine ⟨fun ml bl ms bs => rfl, fun ml bl blk ms bs => rfl, ?_, ?_, ?_⟩
  · intro ml ms1 ms2
    induction ms1 with
    | nil =>
      intro x
      simp [meterLoop]
    | cons rb rest ih =>
      intro x
      simp only [List.cons_append, meterLoop, List.append_eq, ih, List.length_cons]
      rw [List.append_assoc]
      have hx : x + 1 + rest.length + 1 = x + (rest.length + 1) + 1 := by omega
      rw [hx]
  · intro bl bs1 bs2
    induction bs1 with
    | nil =>
      intro x hle
      simp [batteryLoop]
    | cons rb rest ih =>
      intro x hle
      simp only [List.length_cons] at hle
      cases rb with
      | some blk =>
        have hx : ¬ bl.length < x := by omega
        simp only [List.cons_append, batteryLoop, List.append_eq, List.length_cons]
        rw [if_neg hx, if_neg hx, ih (x + 1) (by omega)]
        have hx2 : x + 1 + rest.length + 1 = x + (rest.length + 1) + 1 := by omega
        rw [hx2, List.cons_append]
      | none =>
        simp only [List.cons_append, batteryLoop, List.append_eq, List.length_cons]
        rw [ih (x + 1) (by omega)]
        have hx2 : x + 1 + rest.length + 1 = x + (rest.length + 1) + 1 := by omega
        rw [hx2]
  · intro bl blk bs x hlt
    simp only [batteryLoop]
    rw [if_pos hlt]

/-- C2 witness: the battery-failure split at a concrete input with
sufficient labels — battery 1's failed read skips only battery 1, and
battery 2 still publishes under its own label. -/
theorem c2_steady_cycle_amended_witness :
    batteryLoop ["B1", "B2"] ([] ++ none :: [some [0]]) 1
      = batteryLoop ["B1", "B2"] [] 1
          ++ batteryLoop ["B1", "B2"] [some [0]]
              (1 + List.length ([] : List (Option (List Nat))) + 1) :=
  c2_steady_cycle_amended.2.2.2.1 ["B1", "B2"] [] [some [0]] 1 (by decide)

/-- C2 counterexample: when the inverter read fails but the meter read
succeeds, the meter is NOT published that cycle (the iteration publishes
nothing); the same meter read with a healthy inverter publishes both. -/
theorem c2_counterexample :
    steadyCycle ["L1"] [] { inverter := none, meters := [some [0]], batteries := [] } = []
      ∧ "L1" ∉ steadyCycle ["L1"] [] { inverter := none, meters := [some [0]], batteries := [] }
      ∧ steadyCycle ["L1"] [] { inverter := some [0], meters := [some [0]], batteries := [] }
          = ["Inverter", "L1"] := by
  refine ⟨rfl, ?_, by decide⟩
  intro h
  simp [steadyCycle] at h

/-! ### Prometheus naming -/

/-- C3 (amended): battery readings are published to the metrics sink
under their UNMODIFIED field names for every instance index and either
legacy setting — `publish_metrics` treats `battery` exactly like
`inverter` and never embeds the instance index. -/
theorem c3_battery_names_amended (dictobj : List (String × ℚ)) (i : Nat) (legacy : Bool) :
    publishGaugeNames dictobj "battery" i legacy = dictobj.map (fun kv => kv.1) := by
  unfold publishGaugeNames
  rw [if_pos (Or.inr rfl)]

/-- C3 counterexample: battery instance 2 with legacy mode off publishes
the field `B_Status` under the unmodified gauge name `B_Status` — the
instance index is not embedded. -/
theorem c3_counterexample :
    publishGaugeNames [("B_Status", 0)] "battery" 2 false = ["B_Status"]
      ∧ ("B_Status" : String) ≠ "B2_Status" := by
  constructor
  · decide
  · decide

/-- C8: meter gauge naming — with the legacy flag on and meter index 1
the unmodified name `M_AC_Power` is kept; with legacy off, or for index 2
or 3, the name is rewritten to `M1_AC_Power` / `M2_AC_Power` /
`M3_AC_Power`. -/
theorem c8_legacy_meter_naming (v : ℚ) :
    publishGaugeNames [("M_AC_Power", v)] "meter" 1 true = ["M_AC_Power"]
      ∧ publishGaugeNames [("M_AC_Power", v)] "meter" 1 false = ["M1_AC_Power"]
      ∧ publishGaugeNames [("M_AC_Power", v)] "meter" 2 true = ["M2_AC_Power"]
      ∧ publishGaugeNames [("M_AC_Power", v)] "meter" 2 false = ["M2_AC_Power"]
      ∧ publishGaugeNames [("M_AC_Power", v)] "meter" 3 false = ["M3_AC_Power"] := by
  exact ⟨rfl, rfl, rfl, rfl, rfl⟩

end SolarEdge
